import Mathlib

/-!
Verification of the task-tracking HTTP service (`httpserver.py`).

The file embeds the `TaskManager` store and the `TodoHandler` request
handlers as pure Lean functions.  Python dynamic values that can appear in
request bodies and stored tasks are modelled by the `Json` type, where
`Json.null` plays the role of Python's `None` (which is also what
`json.loads` returns for the input `"null"`).  JSON numbers are modelled as
integers; no claim depends on fractional numbers.  File and socket I/O is
modelled by passing the observable outcome (file content state, body parse
outcome) as an explicit argument.  An uncaught Python exception is modelled
by `Except.error` with the exception name.
-/

namespace TodoServer

/-- Python/JSON values as produced by `json.loads` and stored in tasks. -/
inductive Json where
  | null : Json
  | bool (b : Bool) : Json
  | num (n : Int) : Json
  | str (s : String) : Json
  | arr (xs : List Json) : Json
  | obj (fields : List (String × Json)) : Json
deriving Repr

mutual

/-- Python `==` on JSON values (structural equality, as for the values
`json.loads` produces). -/
def Json.beq : Json → Json → Bool
  | .null, .null => true
  | .bool a, .bool b => a == b
  | .num a, .num b => a == b
  | .str a, .str b => a == b
  | .arr xs, .arr ys => Json.beqList xs ys
  | .obj xs, .obj ys => Json.beqFields xs ys
  | _, _ => false

/-- Python `==` on JSON lists, elementwise. -/
def Json.beqList : List Json → List Json → Bool
  | [], [] => true
  | x :: xs, y :: ys => Json.beq x y && Json.beqList xs ys
  | _, _ => false

/-- Python `==` on JSON object field lists, elementwise. -/
def Json.beqFields : List (String × Json) → List (String × Json) → Bool
  | [], [] => true
  | (k, v) :: xs, (l, w) :: ys => k == l && Json.beq v w && Json.beqFields xs ys
  | _, _ => false

end

instance : BEq Json := ⟨Json.beq⟩

/-- A task as built by `TaskManager.create_task`: a dict with keys
`id`, `title`, `priority`, `isDone`.  `create_task` always assigns an
integer id and a boolean `isDone`; `title` and `priority` are stored
exactly as the caller passed them (arbitrary JSON values). -/
structure Task where
  id : Int
  title : Json
  priority : Json
  isDone : Bool
deriving Repr, BEq

/-- `TaskManager.get_next_id`: `1` if `self.tasks` is empty, otherwise
`max(task['id'] for task in self.tasks) + 1`. -/
def get_next_id (tasks : List Task) : Int :=
  match tasks with
  | [] => 1
  | t :: ts => (ts.foldl (fun m x => max m x.id) t.id) + 1

/-- `TaskManager.create_task`: builds the task dict with the computed id,
the given title and priority, `isDone=False`, appends it, saves, and
returns it.  Result: (created task, new task list). -/
def create_task (tasks : List Task) (title : Json) (priority : Json) :
    Task × List Task :=
  let task : Task := ⟨get_next_id tasks, title, priority, false⟩
  (task, tasks ++ [task])

/-- `TaskManager.get_all_tasks`: returns `self.tasks`. -/
def get_all_tasks (tasks : List Task) : List Task :=
  tasks

/-- `TaskManager.get_task_by_id`: linear scan, first task whose `id`
matches, else `None`. -/
def get_task_by_id (tasks : List Task) (task_id : Int) : Option Task :=
  tasks.find? (fun t => t.id == task_id)

/-- In-place `task['isDone'] = True` on the first task whose id matches
(the object returned by `get_task_by_id`). -/
def set_done_first (tasks : List Task) (task_id : Int) : List Task :=
  match tasks with
  | [] => []
  | t :: ts =>
    if t.id == task_id then { t with isDone := true } :: ts
    else t :: set_done_first ts task_id

/-- Result of a mutating store operation: the boolean the Python method
returns, the task list afterwards, and whether `save_tasks` was invoked. -/
structure OpResult where
  ok : Bool
  tasks : List Task
  saved : Bool
deriving Repr, BEq

/-- `TaskManager.mark_as_done`: find the task; if found set its `isDone`
to `True`, save, return `True`; else return `False`. -/
def mark_as_done (tasks : List Task) (task_id : Int) : OpResult :=
  match get_task_by_id tasks task_id with
  | some _ => ⟨true, set_done_first tasks task_id, true⟩
  | none => ⟨false, tasks, false⟩

/-- Python `list.remove(x)`: removes the first element equal to `x`
(dict equality on all fields). -/
def remove_first (tasks : List Task) (x : Task) : List Task :=
  match tasks with
  | [] => []
  | t :: ts => if t == x then ts else t :: remove_first ts x

/-- `TaskManager.delete_task`: find the task; if found remove it from the
list, save, return `True`; else return `False`. -/
def delete_task (tasks : List Task) (task_id : Int) : OpResult :=
  match get_task_by_id tasks task_id with
  | some t => ⟨true, remove_first tasks t, true⟩
  | none => ⟨false, tasks, false⟩

/-- Observable state of the backing file at startup, as discriminated by
`TaskManager.load_tasks`: the file may be absent, reading it may raise
`IOError`, its stripped content may be empty, `json.loads` may raise
`JSONDecodeError`, or `json.loads` may return a value `j`. -/
inductive FileContent where
  | absent : FileContent
  | readErr : FileContent
  | blank : FileContent
  | malformed : FileContent
  | wellFormed (j : Json) : FileContent
deriving Repr

/-- `TaskManager.load_tasks` (with `self.tasks` initialised to `[]` by
`__init__`): when the file exists, is readable, has non-blank content and
that content parses, `self.tasks` becomes whatever `json.loads` returned
(not necessarily a list); in every other case `self.tasks` stays `[]`. -/
def load_tasks : FileContent → Json
  | .absent => .arr []
  | .readErr => .arr []
  | .blank => .arr []
  | .malformed => .arr []
  | .wellFormed j => j

/-- An HTTP response produced by `TodoHandler._send_json`: a status code
and a JSON body (the handler always sets Content-Type application/json). -/
structure Response where
  status : Nat
  body : Json
deriving Repr, BEq

/-- `TodoHandler._send_error`: a JSON object `{"error": message}` with the
given status. -/
def send_error (status : Nat) (message : String) : Response :=
  ⟨status, .obj [("error", .str message)]⟩

/-- The task dict as serialised into response bodies (`json.dumps` of the
stored dict, whose keys are id, title, priority, isDone in insertion
order). -/
def task_to_json (t : Task) : Json :=
  .obj [("id", .num t.id), ("title", t.title),
        ("priority", t.priority), ("isDone", .bool t.isDone)]

/-- Observable outcome of reading the request body in
`TodoHandler._parse_json_body`: Content-Length 0 (no body), a body that
makes `json.loads` (or the length conversion) raise, or a body parsed to
the JSON value `j`. -/
inductive BodyParse where
  | noBody : BodyParse
  | malformed : BodyParse
  | value (j : Json) : BodyParse
deriving Repr

/-- `TodoHandler._parse_json_body`: returns `None` (here `Json.null`) when
there is no body or parsing raises, otherwise the parsed value — which is
itself `None` when the body is the JSON text `null`. -/
def parse_json_body : BodyParse → Json
  | .noBody => .null
  | .malformed => .null
  | .value j => j

/-- Python `dict.get(key, default)` on a parsed JSON object (parsed dicts
have unique keys, so the first binding is the binding). -/
def dict_get (fields : List (String × Json)) (key : String) (default : Json) :
    Json :=
  match fields.find? (fun p => p.1 == key) with
  | some p => p.2
  | none => default

/-- Python truthiness (`if not title`) on the JSON values `json.loads` can
produce: `None`, `False`, `0`, `""`, `[]`, `{}` are falsy. -/
def py_falsy : Json → Bool
  | .null => true
  | .bool b => !b
  | .num n => n == 0
  | .str s => s == ""
  | .arr xs => xs.isEmpty
  | .obj fs => fs.isEmpty

/-- `priority not in ['low', 'normal', 'high']`, negated: a JSON value is
an allowed priority exactly when it is one of these three strings (any
non-string value compares unequal to all three in Python). -/
def priority_allowed : Json → Bool
  | .str s => s == "low" || s == "normal" || s == "high"
  | _ => false

/-- `TodoHandler._handle_post_tasks`.  The result carries the response,
the task list afterwards, and whether `save_tasks` ran; `Except.error`
models the uncaught `AttributeError` raised by `data.get('title')` when
the parsed body is neither `None` nor a dict. -/
def handle_post_tasks (tasks : List Task) (b : BodyParse) :
    Except String (Response × List Task × Bool) :=
  match parse_json_body b with
  | .null => .ok (send_error 400 "Invalid JSON", tasks, false)
  | .obj fields =>
    let title := dict_get fields "title" .null
    let priority := dict_get fields "priority" (.str "normal")
    if py_falsy title then
      .ok (send_error 400 "title is required", tasks, false)
    else if !(priority_allowed priority) then
      .ok (send_error 400 "priority must be low, normal, or high", tasks, false)
    else
      let r := create_task tasks title priority
      .ok (⟨201, task_to_json r.1⟩, r.2, true)
  | _ => .error "AttributeError"

/-- Python `path.strip('/')` on a character list: remove leading and
trailing `/` characters. -/
def strip_slashes (cs : List Char) : List Char :=
  ((cs.dropWhile (· == '/')).reverse.dropWhile (· == '/')).reverse

/-- Python `s.split('/')`: split on every `/`, keeping empty segments
(so the empty string yields `[""]`). -/
def split_slash : List Char → List Char → List (List Char)
  | [], acc => [acc.reverse]
  | c :: cs, acc =>
    if c == '/' then acc.reverse :: split_slash cs []
    else split_slash cs (c :: acc)

/-- A nonempty all-digit character list read as a decimal number. -/
def dec_digits (ds : List Char) : Option Nat :=
  if ds.isEmpty then none
  else if ds.all Char.isDigit then
    some (ds.foldl (fun n c => n * 10 + (c.toNat - 48)) 0)
  else none

/-- Python `int(s)` on a path segment: optional surrounding whitespace,
optional sign, then decimal digits; anything else raises `ValueError`
(here `none`).  Underscore digit grouping is not modelled; no claim
involves it. -/
def py_int (cs : List Char) : Option Int :=
  let cs := (cs.dropWhile Char.isWhitespace).reverse.dropWhile Char.isWhitespace
  match cs.reverse with
  | '+' :: ds => (dec_digits ds).map Int.ofNat
  | '-' :: ds => (dec_digits ds).map (fun n => -(Int.ofNat n))
  | ds => (dec_digits ds).map Int.ofNat

/-- `TodoHandler._extract_task_id_from_path`: strip slashes, split on `/`,
require at least two segments with the first equal to `"tasks"`, and parse
the second as an integer; every failure yields `None`. -/
def extract_task_id_from_path (path : String) : Option Int :=
  match split_slash (strip_slashes path.toList) [] with
  | s0 :: s1 :: _ =>
    if s0 == "tasks".toList then py_int s1 else none
  | _ => none

/-- `TodoHandler._handle_get_tasks`: 200 with the JSON array of all
tasks. -/
def handle_get_tasks (tasks : List Task) : Response :=
  ⟨200, .arr ((get_all_tasks tasks).map task_to_json)⟩

/-- `TodoHandler._handle_post_tasks_complete`: 400 on unparseable id,
otherwise delegate to `mark_as_done`; 200 `{}` on success, 404 on
failure. -/
def handle_post_tasks_complete (tasks : List Task) (path : String) :
    Response × List Task × Bool :=
  match extract_task_id_from_path path with
  | none => (send_error 400 "Invalid task ID", tasks, false)
  | some task_id =>
    let r := mark_as_done tasks task_id
    if r.ok then (⟨200, .obj []⟩, r.tasks, r.saved)
    else (send_error 404 "Task not found", r.tasks, r.saved)

/-- `TodoHandler._handle_delete_task`: 400 on unparseable id, otherwise
delegate to `delete_task`; 200 `{}` on success, 404 on failure. -/
def handle_delete_task (tasks : List Task) (path : String) :
    Response × List Task × Bool :=
  match extract_task_id_from_path path with
  | none => (send_error 400 "Invalid task ID", tasks, false)
  | some task_id =>
    let r := delete_task tasks task_id
    if r.ok then (⟨200, .obj []⟩, r.tasks, r.saved)
    else (send_error 404 "Task not found", r.tasks, r.saved)

/-- Python `s.startswith(p)` on character lists. -/
def list_starts_with : List Char → List Char → Bool
  | _, [] => true
  | [], _ :: _ => false
  | c :: cs, p :: ps => c == p && list_starts_with cs ps

/-- Python `s.startswith(p)`. -/
def starts_with (s p : String) : Bool :=
  list_starts_with s.toList p.toList

/-- Python `s.endswith(p)`. -/
def ends_with (s p : String) : Bool :=
  list_starts_with s.toList.reverse p.toList.reverse

/-- The HTTP method of a request; `other` covers every method for which
`TodoHandler` defines no `do_<METHOD>` member. -/
inductive Method where
  | GET : Method
  | POST : Method
  | DELETE : Method
  | other (name : String) : Method
deriving Repr

/-- What the server sends back: a JSON response from `TodoHandler`, or
the HTML error page `http.server.BaseHTTPRequestHandler` itself sends. -/
inductive Reply where
  | api (r : Response) : Reply
  | unsupported (status : Nat) (message : String) : Reply
deriving Repr

/-- Full request dispatch: `BaseHTTPRequestHandler.handle_one_request`
invokes `do_GET` / `do_POST` / `do_DELETE` when defined, and for any
other method sends `501 Unsupported method ('NAME')` itself (an HTML
error page, not handler code); the bodies of `do_GET`, `do_POST` and
`do_DELETE` are the path tests of `httpserver.py`. -/
def dispatch (m : Method) (path : String) (b : BodyParse)
    (tasks : List Task) : Except String (Reply × List Task × Bool) :=
  match m with
  | .GET =>
    if path = "/tasks" then .ok (.api (handle_get_tasks tasks), tasks, false)
    else .ok (.api (send_error 404 "Route not found"), tasks, false)
  | .POST =>
    if path = "/tasks" then
      match handle_post_tasks tasks b with
      | .ok (r, ts, sv) => .ok (.api r, ts, sv)
      | .error e => .error e
    else if starts_with path "/tasks/" && ends_with path "/complete" then
      let r := handle_post_tasks_complete tasks path
      .ok (.api r.1, r.2.1, r.2.2)
    else .ok (.api (send_error 404 "Route not found"), tasks, false)
  | .DELETE =>
    if starts_with path "/tasks/" then
      let r := handle_delete_task tasks path
      .ok (.api r.1, r.2.1, r.2.2)
    else .ok (.api (send_error 404 "Route not found"), tasks, false)
  | .other name =>
    .ok (.unsupported 501 ("Unsupported method ('" ++ name ++ "')"), tasks,
      false)

/-- One mutating store operation, as reachable through the API. -/
inductive Op where
  | create (title priority : Json) : Op
  | markDone (task_id : Int) : Op
  | delete (task_id : Int) : Op

/-- Effect of one store operation on the task list. -/
def apply_op (tasks : List Task) : Op → List Task
  | .create title priority => (create_task tasks title priority).2
  | .markDone i => (mark_as_done tasks i).tasks
  | .delete i => (delete_task tasks i).tasks

/-- Effect of a sequence of store operations, applied left to right. -/
def apply_ops (tasks : List Task) (ops : List Op) : List Task :=
  ops.foldl apply_op tasks

/-- Whether a JSON value is an array (the shape of a persisted task
collection). -/
def is_json_array : Json → Bool
  | .arr _ => true
  | _ => false

lemma le_foldl_max (ts : List Task) (a : Int) :
    a ≤ ts.foldl (fun m x => max m x.id) a := by
  induction ts generalizing a with
  | nil => simp [List.foldl]
  | cons t ts ih =>
    exact le_trans (le_max_left a t.id) (ih (max a t.id))

lemma mem_le_foldl_max (ts : List Task) (a : Int) :
    ∀ t ∈ ts, t.id ≤ ts.foldl (fun m x => max m x.id) a := by
  induction ts generalizing a with
  | nil => simp
  | cons u ts ih =>
    intro t ht
    rcases List.mem_cons.mp ht with h | h
    · subst h
      exact le_trans (le_max_right a t.id) (le_foldl_max ts _)
    · exact ih _ t h

lemma id_lt_get_next_id (tasks : List Task) :
    ∀ t ∈ tasks, t.id < get_next_id tasks := by
  intro t ht
  cases tasks with
  | nil => cases ht
  | cons u ts =>
    rcases List.mem_cons.mp ht with h | h
    · subst h
      exact Int.lt_add_one_iff.mpr (le_foldl_max ts t.id)
    · exact Int.lt_add_one_iff.mpr (mem_le_foldl_max ts u.id t h)

lemma foldl_max_attained (ts : List Task) (a : Int) :
    ts.foldl (fun m x => max m x.id) a = a ∨
      ∃ t ∈ ts, ts.foldl (fun m x => max m x.id) a = t.id := by
  induction ts generalizing a with
  | nil => exact Or.inl rfl
  | cons u ts ih =>
    have hstep : (u :: ts).foldl (fun m x => max m x.id) a
        = ts.foldl (fun m x => max m x.id) (max a u.id) := rfl
    rcases ih (max a u.id) with h | ⟨t, ht, h⟩
    · rcases le_total a u.id with hle | hle
      · refine Or.inr ⟨u, List.mem_cons_self u ts, ?_⟩
        rw [hstep, h, max_eq_right hle]
      · refine Or.inl ?_
        rw [hstep, h, max_eq_left hle]
    · exact Or.inr ⟨t, List.mem_cons_of_mem u ht, by rw [hstep, h]⟩

lemma set_done_first_map_id (tasks : List Task) (i : Int) :
    (set_done_first tasks i).map Task.id = tasks.map Task.id := by
  induction tasks with
  | nil => rfl
  | cons t ts ih =>
    by_cases h : (t.id == i) = true
    · simp [set_done_first, h]
    · simp [set_done_first, h, ih]

lemma remove_first_sublist (tasks : List Task) (x : Task) :
    (remove_first tasks x).Sublist tasks := by
  induction tasks with
  | nil => exact List.Sublist.refl []
  | cons t ts ih =>
    by_cases h : (t == x) = true
    · simp only [remove_first, h, if_pos]
      exact List.sublist_cons_self t ts
    · simp only [remove_first, h, if_neg, Bool.false_eq_true, not_false_iff]
      exact List.Sublist.cons₂ t ih

lemma set_done_first_of_found_done (tasks : List Task) (i : Int) (t : Task)
    (hfind : get_task_by_id tasks i = some t) (hdone : t.isDone = true) :
    set_done_first tasks i = tasks := by
  induction tasks with
  | nil => simp [get_task_by_id] at hfind
  | cons u ts ih =>
    by_cases h : (u.id == i) = true
    · have hu : u = t := by
        simpa [get_task_by_id, List.find?, h] using hfind
      subst hu
      have : { u with isDone := true } = u := by
        cases u with
        | mk id title priority isDone => simp_all
      simp [set_done_first, h, this]
    · have hfind' : get_task_by_id ts i = some t := by
        simpa [get_task_by_id, List.find?, h] using hfind
      simp [set_done_first, h, ih hfind']

lemma apply_op_nodup (tasks : List Task) (op : Op)
    (h : (tasks.map Task.id).Nodup) :
    ((apply_op tasks op).map Task.id).Nodup := by
  cases op with
  | create title priority =>
    have hnotmem : get_next_id tasks ∉ tasks.map Task.id := by
      intro hmem
      rcases List.mem_map.mp hmem with ⟨t, ht, hid⟩
      exact absurd hid (Int.ne_of_lt (id_lt_get_next_id tasks t ht))
    have : (apply_op tasks (.create title priority)).map Task.id
        = tasks.map Task.id ++ [get_next_id tasks] := by
      simp [apply_op, create_task]
    rw [this]
    refine List.Nodup.append h (List.nodup_singleton _) ?_
    intro a ha hamem
    rw [List.mem_singleton] at hamem
    subst hamem
    exact hnotmem ha
  | markDone i =>
    cases hfind : get_task_by_id tasks i with
    | none => simpa [apply_op, mark_as_done, hfind] using h
    | some t =>
      have : (apply_op tasks (.markDone i)).map Task.id = tasks.map Task.id := by
        simp [apply_op, mark_as_done, hfind, set_done_first_map_id]
      rw [this]; exact h
  | delete i =>
    cases hfind : get_task_by_id tasks i with
    | none => simpa [apply_op, delete_task, hfind] using h
    | some t =>
      have hsub : ((apply_op tasks (.delete i)).map Task.id).Sublist
          (tasks.map Task.id) := by
        simp only [apply_op, delete_task, hfind]
        exact List.Sublist.map Task.id (remove_first_sublist tasks t)
      exact List.Nodup.sublist hsub h

/-- C3: for every store state, `get_next_id` returns 1 when the task
collection is empty, and otherwise the maximum id among the stored tasks
plus 1 (there is a stored task whose id is the maximum, and the result is
that id plus one). -/
theorem get_next_id_spec :
    get_next_id [] = 1 ∧
    ∀ tasks : List Task, tasks ≠ [] →
      ∃ t ∈ tasks, get_next_id tasks = t.id + 1 ∧ ∀ u ∈ tasks, u.id ≤ t.id := by
  constructor
  · rfl
  · intro tasks hne
    cases tasks with
    | nil => exact absurd rfl hne
    | cons u ts =>
      rcases foldl_max_attained ts u.id with h | ⟨t, ht, h⟩
      · refine ⟨u, List.mem_cons_self u ts, ?_, ?_⟩
        · show (ts.foldl (fun m x => max m x.id) u.id) + 1 = u.id + 1
          rw [h]
        · intro v hv
          rcases List.mem_cons.mp hv with hvu | hvts
          · rw [hvu]
          · have := mem_le_foldl_max ts u.id v hvts
            rw [h] at this
            exact this
      · refine ⟨t, List.mem_cons_of_mem u ht, ?_, ?_⟩
        · show (ts.foldl (fun m x => max m x.id) u.id) + 1 = t.id + 1
          rw [h]
        · intro v hv
          rcases List.mem_cons.mp hv with hvu | hvts
          · have := le_foldl_max ts u.id
            rw [h] at this
            rw [hvu]
            exact this
          · have := mem_le_foldl_max ts u.id v hvts
            rw [h] at this
            exact this

/-- C3 witness: `get_next_id` evaluated on the empty store and on a
concrete two-task store. -/
theorem get_next_id_spec_witness :
    get_next_id [] = 1 ∧
    ∃ t ∈ [(⟨3, Json.null, Json.null, false⟩ : Task),
           ⟨7, Json.null, Json.null, true⟩],
      get_next_id [(⟨3, Json.null, Json.null, false⟩ : Task),
                   ⟨7, Json.null, Json.null, true⟩] = t.id + 1 ∧
      ∀ u ∈ [(⟨3, Json.null, Json.null, false⟩ : Task),
             ⟨7, Json.null, Json.null, true⟩], u.id ≤ t.id :=
  ⟨get_next_id_spec.1, get_next_id_spec.2 _ (by simp)⟩

/-- C4: from any store whose ids are pairwise distinct, every sequence of
create, mark-done and delete operations leads only to stores whose ids
are pairwise distinct. -/
theorem ids_nodup_preserved :
    ∀ (ops : List Op) (tasks : List Task), (tasks.map Task.id).Nodup →
      ((apply_ops tasks ops).map Task.id).Nodup := by
  intro ops
  induction ops with
  | nil => intro tasks h; exact h
  | cons op ops ih =>
    intro tasks h
    exact ih _ (apply_op_nodup tasks op h)

/-- C4 witness: a concrete four-operation run from a one-task store. -/
theorem ids_nodup_preserved_witness :
    ((apply_ops [(⟨1, Json.str "a", Json.str "normal", false⟩ : Task)]
        [Op.create (Json.str "b") (Json.str "high"), Op.markDone 1,
         Op.delete 2, Op.create (Json.str "c") (Json.str "low")]).map
      Task.id).Nodup :=
  ids_nodup_preserved _ _ (by simp)

/-- C1 counterexample: create (id 1), create (id 2), delete 2, create —
the last create assigns id 2 again, so a deleted id IS reused and the
listing shows id 2 again; the claim's "no later create ever assigns id X
again" is false for the code's max-plus-one scheme. -/
theorem id_reuse_counterexample :
    (create_task (create_task [] (Json.str "a") (Json.str "normal")).2
        (Json.str "b") (Json.str "normal")).1.id = 2 ∧
    (create_task
        (delete_task
          (create_task (create_task [] (Json.str "a") (Json.str "normal")).2
            (Json.str "b") (Json.str "normal")).2 2).tasks
        (Json.str "c") (Json.str "normal")).1.id = 2 ∧
    ((create_task
        (delete_task
          (create_task (create_task [] (Json.str "a") (Json.str "normal")).2
            (Json.str "b") (Json.str "normal")).2 2).tasks
        (Json.str "c") (Json.str "normal")).2).map Task.id = [1, 2] :=
  ⟨rfl, rfl, rfl⟩

/-- C1 amended: the id assigned to a newly created task is strictly
greater than every id currently in the store, and consecutive creates
(without an intervening delete) assign strictly increasing ids; after a
deletion of the maximal id, however, a later create can reassign it. -/
theorem create_id_monotone_amended :
    (∀ (tasks : List Task) (title priority : Json),
      ∀ t ∈ tasks, t.id < (create_task tasks title priority).1.id) ∧
    (∀ (tasks : List Task) (t1 p1 t2 p2 : Json),
      (create_task tasks t1 p1).1.id <
        (create_task (create_task tasks t1 p1).2 t2 p2).1.id) := by
  constructor
  · intro tasks title priority t ht
    exact id_lt_get_next_id tasks t ht
  · intro tasks t1 p1 t2 p2
    have hmem : (create_task tasks t1 p1).1 ∈ (create_task tasks t1 p1).2 := by
      simp [create_task]
    exact id_lt_get_next_id _ _ hmem

/-- C1 witness: the amended bound evaluated on a concrete one-task
store. -/
theorem create_id_monotone_amended_witness :
    (⟨5, Json.str "x", Json.str "low", true⟩ : Task).id <
      (create_task [⟨5, Json.str "x", Json.str "low", true⟩]
        (Json.str "y") (Json.str "normal")).1.id :=
  create_id_monotone_amended.1 _ _ _ _ (List.mem_singleton_self _)

/-- C9: creating then listing yields the old collection with exactly the
created task appended at the end, the created task carries the given
title and priority with `isDone = false` and the computed id, and no
pre-existing task shares its id. -/
theorem create_then_list :
    ∀ (tasks : List Task) (title priority : Json),
      get_all_tasks (create_task tasks title priority).2
          = get_all_tasks tasks ++ [(create_task tasks title priority).1] ∧
      (create_task tasks title priority).1.title = title ∧
      (create_task tasks title priority).1.priority = priority ∧
      (create_task tasks title priority).1.isDone = false ∧
      (create_task tasks title priority).1.id = get_next_id tasks ∧
      ∀ t ∈ get_all_tasks tasks, t.id < (create_task tasks title priority).1.id := by
  intro tasks title priority
  refine ⟨rfl, rfl, rfl, rfl, rfl, ?_⟩
  intro t ht
  exact id_lt_get_next_id tasks t ht

/-- C9 witness: the round-trip evaluated on a concrete one-task store. -/
theorem create_then_list_witness :
    get_all_tasks (create_task [(⟨1, Json.str "a", Json.str "normal", true⟩ : Task)]
        (Json.str "b") (Json.str "high")).2
      = get_all_tasks [(⟨1, Json.str "a", Json.str "normal", true⟩ : Task)]
        ++ [(create_task [(⟨1, Json.str "a", Json.str "normal", true⟩ : Task)]
              (Json.str "b") (Json.str "high")).1] ∧
    (⟨1, Json.str "a", Json.str "normal", true⟩ : Task).id <
      (create_task [(⟨1, Json.str "a", Json.str "normal", true⟩ : Task)]
        (Json.str "b") (Json.str "high")).1.id :=
  ⟨(create_then_list _ _ _).1,
   (create_then_list _ _ _).2.2.2.2.2 _ (List.mem_singleton_self _)⟩

/-- C7: completing a task whose `isDone` flag is already true still
succeeds — `mark_as_done` returns `True`, saves, and leaves the store
unchanged, and the completion endpoint answers 200 with body `{}`;
the flag is never toggled off. -/
theorem mark_done_idempotent :
    ∀ (tasks : List Task) (X : Int) (t : Task) (path : String),
      get_task_by_id tasks X = some t → t.isDone = true →
      extract_task_id_from_path path = some X →
      mark_as_done tasks X = ⟨true, tasks, true⟩ ∧
      handle_post_tasks_complete tasks path = (⟨200, Json.obj []⟩, tasks, true) := by
  intro tasks X t path hfind hdone hpath
  have hset := set_done_first_of_found_done tasks X t hfind hdone
  have hmark : mark_as_done tasks X = ⟨true, tasks, true⟩ := by
    simp [mark_as_done, hfind, hset]
  refine ⟨hmark, ?_⟩
  simp [handle_post_tasks_complete, hpath, hmark]

/-- C7 witness: re-completing the already-done task 1 through
`POST /tasks/1/complete`. -/
theorem mark_done_idempotent_witness :
    mark_as_done [(⟨1, Json.str "a", Json.str "normal", true⟩ : Task)] 1
        = ⟨true, [⟨1, Json.str "a", Json.str "normal", true⟩], true⟩ ∧
    handle_post_tasks_complete
        [(⟨1, Json.str "a", Json.str "normal", true⟩ : Task)]
        "/tasks/1/complete"
        = (⟨200, Json.obj []⟩,
           [⟨1, Json.str "a", Json.str "normal", true⟩], true) :=
  mark_done_idempotent _ 1 _ "/tasks/1/complete" rfl rfl rfl

/-- C8: when no stored task has id X, `mark_as_done` and `delete_task`
return `False`, leave the collection unchanged and never call
`save_tasks`, and the endpoints answer 404 "Task not found"; when some
stored task has id X, both operations return `True` and the endpoints
answer 200 with body `{}`. -/
theorem markdone_delete_not_found_atomic :
    (∀ (tasks : List Task) (X : Int) (path : String),
      (∀ t ∈ tasks, t.id ≠ X) →
      extract_task_id_from_path path = some X →
      mark_as_done tasks X = ⟨false, tasks, false⟩ ∧
      delete_task tasks X = ⟨false, tasks, false⟩ ∧
      handle_post_tasks_complete tasks path
          = (send_error 404 "Task not found", tasks, false) ∧
      handle_delete_task tasks path
          = (send_error 404 "Task not found", tasks, false)) ∧
    (∀ (tasks : List Task) (X : Int) (path : String),
      (∃ t ∈ tasks, t.id = X) →
      extract_task_id_from_path path = some X →
      (mark_as_done tasks X).ok = true ∧
      (delete_task tasks X).ok = true ∧
      (handle_post_tasks_complete tasks path).1 = ⟨200, Json.obj []⟩ ∧
      (handle_delete_task tasks path).1 = ⟨200, Json.obj []⟩) := by
  constructor
  · intro tasks X path habs hpath
    have hnone : get_task_by_id tasks X = none := by
      refine List.find?_eq_none.mpr ?_
      intro t ht
      simpa using habs t ht
    have hmark : mark_as_done tasks X = ⟨false, tasks, false⟩ := by
      simp [mark_as_done, hnone]
    have hdel : delete_task tasks X = ⟨false, tasks, false⟩ := by
      simp [delete_task, hnone]
    refine ⟨hmark, hdel, ?_, ?_⟩
    · simp [handle_post_tasks_complete, hpath, hmark]
    · simp [handle_delete_task, hpath, hdel]
  · intro tasks X path hex hpath
    have hsome : (tasks.find? (fun t => t.id == X)).isSome := by
      refine List.find?_isSome.mpr ?_
      rcases hex with ⟨t, ht, hid⟩
      exact ⟨t, ht, by simp [hid]⟩
    rcases Option.isSome_iff_exists.mp hsome with ⟨u, hfind⟩
    have hfind' : get_task_by_id tasks X = some u := hfind
    have hmark : (mark_as_done tasks X).ok = true := by
      simp [mark_as_done, hfind']
    have hdel : (delete_task tasks X).ok = true := by
      simp [delete_task, hfind']
    refine ⟨hmark, hdel, ?_, ?_⟩
    · simp [handle_post_tasks_complete, hpath, mark_as_done, hfind']
    · simp [handle_delete_task, hpath, delete_task, hfind']

/-- C8 witness: id 999 on a one-task store (absent), and id 1 on the same
store (present), through concrete paths. -/
theorem markdone_delete_not_found_atomic_witness :
    mark_as_done [(⟨1, Json.str "a", Json.str "normal", false⟩ : Task)] 999
        = ⟨false, [⟨1, Json.str "a", Json.str "normal", false⟩], false⟩ ∧
    delete_task [(⟨1, Json.str "a", Json.str "normal", false⟩ : Task)] 999
        = ⟨false, [⟨1, Json.str "a", Json.str "normal", false⟩], false⟩ ∧
    handle_delete_task [(⟨1, Json.str "a", Json.str "normal", false⟩ : Task)]
        "/tasks/999"
        = (send_error 404 "Task not found",
           [⟨1, Json.str "a", Json.str "normal", false⟩], false) ∧
    (handle_post_tasks_complete
        [(⟨1, Json.str "a", Json.str "normal", false⟩ : Task)]
        "/tasks/1/complete").1 = ⟨200, Json.obj []⟩ := by
  have habs := markdone_delete_not_found_atomic.1
      [(⟨1, Json.str "a", Json.str "normal", false⟩ : Task)] 999 "/tasks/999"
      (by intro t ht; rw [List.mem_singleton] at ht; subst ht; decide) rfl
  have hpres := markdone_delete_not_found_atomic.2
      [(⟨1, Json.str "a", Json.str "normal", false⟩ : Task)] 1
      "/tasks/1/complete"
      ⟨⟨1, Json.str "a", Json.str "normal", false⟩,
        List.mem_singleton_self _, rfl⟩ rfl
  exact ⟨habs.1, habs.2.1, habs.2.2.2, hpres.2.2.1⟩

/-- C2 counterexample: a body that is the well-formed JSON array `[1]`
parses, has no "title" field, and the claim therefore promises the 400
"title is required" response — but `data.get('title')` raises an uncaught
`AttributeError` and no response is produced at all. -/
theorem post_tasks_array_counterexample :
    handle_post_tasks [] (.value (.arr [.num 1])) = .error "AttributeError" :=
  rfl

/-- C2 amended: the create handler's checks run in the claimed order for
every body whose parse result is `None` (unparseable, empty, or the JSON
text `null`) — 400 "Invalid JSON" — and for every body parsing to a JSON
object: falsy/absent title gives 400 "title is required", then a priority
outside {low, normal, high} gives 400 with that exact message, and
otherwise 201 with the created task; bodies parsing to any other JSON
value fall outside this contract (they raise, see C10). -/
theorem post_tasks_validation_amended :
    (∀ (tasks : List Task) (b : BodyParse), parse_json_body b = Json.null →
      handle_post_tasks tasks b = .ok (send_error 400 "Invalid JSON", tasks, false)) ∧
    (∀ (tasks : List Task) (fields : List (String × Json)),
      (py_falsy (dict_get fields "title" Json.null) = true →
        handle_post_tasks tasks (.value (.obj fields))
            = .ok (send_error 400 "title is required", tasks, false)) ∧
      (py_falsy (dict_get fields "title" Json.null) = false →
        priority_allowed (dict_get fields "priority" (Json.str "normal")) = false →
        handle_post_tasks tasks (.value (.obj fields))
            = .ok (send_error 400 "priority must be low, normal, or high",
                tasks, false)) ∧
      (py_falsy (dict_get fields "title" Json.null) = false →
        priority_allowed (dict_get fields "priority" (Json.str "normal")) = true →
        handle_post_tasks tasks (.value (.obj fields))
            = .ok (⟨201, task_to_json
                  (create_task tasks (dict_get fields "title" Json.null)
                    (dict_get fields "priority" (Json.str "normal"))).1⟩,
                (create_task tasks (dict_get fields "title" Json.null)
                  (dict_get fields "priority" (Json.str "normal"))).2, true))) := by
  constructor
  · intro tasks b hb
    simp [handle_post_tasks, hb]
  · intro tasks fields
    refine ⟨?_, ?_, ?_⟩
    · intro h1
      simp [handle_post_tasks, parse_json_body, h1]
    · intro h1 h2
      simp [handle_post_tasks, parse_json_body, h1, h2]
    · intro h1 h2
      simp [handle_post_tasks, parse_json_body, h1, h2]

/-- C2 witness: the four branches at concrete bodies — no body, missing
title, priority "urgent", and a valid create. -/
theorem post_tasks_validation_amended_witness :
    handle_post_tasks [] .noBody
        = .ok (send_error 400 "Invalid JSON", [], false) ∧
    handle_post_tasks [] (.value (.obj [("priority", Json.str "high")]))
        = .ok (send_error 400 "title is required", [], false) ∧
    handle_post_tasks []
        (.value (.obj [("title", Json.str "X"), ("priority", Json.str "urgent")]))
        = .ok (send_error 400 "priority must be low, normal, or high", [], false) ∧
    handle_post_tasks []
        (.value (.obj [("title", Json.str "Buy milk"), ("priority", Json.str "high")]))
        = .ok (⟨201, task_to_json ⟨1, Json.str "Buy milk", Json.str "high", false⟩⟩,
            [⟨1, Json.str "Buy milk", Json.str "high", false⟩], true) :=
  ⟨post_tasks_validation_amended.1 [] .noBody rfl,
   (post_tasks_validation_amended.2 [] _).1 rfl,
   (post_tasks_validation_amended.2 [] _).2.1 rfl rfl,
   (post_tasks_validation_amended.2 [] _).2.2 rfl rfl⟩

/-- C10 counterexample: the JSON text `null` is well-formed JSON and not a
JSON object, yet the handler does return a 400 response ("Invalid JSON",
because `json.loads` yields `None`), contradicting the claim's "does not
return any 400 or 201 response" over all non-object JSON bodies. -/
theorem post_tasks_null_body_counterexample :
    handle_post_tasks [] (.value Json.null)
        = .ok (send_error 400 "Invalid JSON", [], false) :=
  rfl

/-- C10 amended: for every body parsing to well-formed JSON that is
neither a JSON object nor `null`, the create handler produces no response:
`data.get('title')` raises an uncaught `AttributeError`. -/
theorem post_tasks_nondict_crash :
    ∀ (tasks : List Task) (j : Json),
      (∀ fields, j ≠ Json.obj fields) → j ≠ Json.null →
      handle_post_tasks tasks (.value j) = .error "AttributeError" := by
  intro tasks j hobj hnull
  cases j with
  | null => exact absurd rfl hnull
  | obj fields => exact absurd rfl (hobj fields)
  | bool b => rfl
  | num n => rfl
  | str s => rfl
  | arr xs => rfl

/-- C10 witness: a JSON string body crashes the handler. -/
theorem post_tasks_nondict_crash_witness :
    handle_post_tasks [] (.value (Json.str "hello")) = .error "AttributeError" :=
  post_tasks_nondict_crash [] (Json.str "hello")
    (fun _ h => Json.noConfusion h) (fun h => Json.noConfusion h)

/-- C5 counterexample: a PUT request (no `do_PUT` is defined) is answered
by the HTTP library with 501 "Unsupported method ('PUT')" — an HTML error
page — and not with the claimed 404 `{"error": "Route not found"}`. -/
theorem unsupported_method_counterexample :
    dispatch (.other "PUT") "/tasks/1" .noBody []
        = .ok (.unsupported 501 "Unsupported method ('PUT')", [], false) ∧
    dispatch (.other "PUT") "/tasks/1" .noBody []
        ≠ .ok (.api (send_error 404 "Route not found"), [], false) :=
  ⟨rfl, by simp [dispatch]⟩

/-- C5 amended: a GET, POST or DELETE request whose path matches none of
the four routes is answered 404 `{"error": "Route not found"}`; a request
with any other method is rejected by `BaseHTTPRequestHandler` itself with
501 "Unsupported method", not with the JSON 404. -/
theorem routing_fallback_amended :
    (∀ (tasks : List Task) (path : String) (b : BodyParse),
      path ≠ "/tasks" →
      dispatch .GET path b tasks
          = .ok (.api (send_error 404 "Route not found"), tasks, false)) ∧
    (∀ (tasks : List Task) (path : String) (b : BodyParse),
      path ≠ "/tasks" →
      (starts_with path "/tasks/" && ends_with path "/complete") = false →
      dispatch .POST path b tasks
          = .ok (.api (send_error 404 "Route not found"), tasks, false)) ∧
    (∀ (tasks : List Task) (path : String) (b : BodyParse),
      starts_with path "/tasks/" = false →
      dispatch .DELETE path b tasks
          = .ok (.api (send_error 404 "Route not found"), tasks, false)) ∧
    (∀ (tasks : List Task) (path : String) (b : BodyParse) (name : String),
      dispatch (.other name) path b tasks
          = .ok (.unsupported 501 ("Unsupported method ('" ++ name ++ "')"),
              tasks, false)) := by
  refine ⟨?_, ?_, ?_, ?_⟩
  · intro tasks path b h
    simp [dispatch, h]
  · intro tasks path b h hsw
    simp [dispatch, h, hsw]
  · intro tasks path b h
    simp [dispatch, h]
  · intro tasks path b name
    rfl

/-- C5 witness: concrete unmatched requests for each of the three
implemented methods. -/
theorem routing_fallback_amended_witness :
    dispatch .GET "/tasks/1" .noBody []
        = .ok (.api (send_error 404 "Route not found"), [], false) ∧
    dispatch .POST "/nope" .noBody []
        = .ok (.api (send_error 404 "Route not found"), [], false) ∧
    dispatch .DELETE "/tasks" .noBody []
        = .ok (.api (send_error 404 "Route not found"), [], false) :=
  ⟨routing_fallback_amended.1 [] "/tasks/1" .noBody (by decide),
   routing_fallback_amended.2.1 [] "/nope" .noBody (by decide) (by decide),
   routing_fallback_amended.2.2.1 [] "/tasks" .noBody (by decide)⟩

/-- C6 counterexample: a backing file whose content is the well-formed
JSON text `42` does not deserialize to a task collection, yet
`load_tasks` stores `42` itself — not the empty collection the claim
promises. -/
theorem load_tasks_nonlist_counterexample :
    load_tasks (.wellFormed (Json.num 42)) = Json.num 42 ∧
    is_json_array (load_tasks (.wellFormed (Json.num 42))) = false ∧
    load_tasks (.wellFormed (Json.num 42)) ≠ Json.arr [] :=
  ⟨rfl, rfl, fun h => Json.noConfusion h⟩

/-- C6 amended: startup load falls back to the empty collection when the
file is absent, unreadable, blank, or fails to parse as JSON — never
raising — and stores the parsed value verbatim when the content is
well-formed JSON, which reproduces exactly a well-formed persisted task
array but can leave a non-array value in the store for other JSON
content. -/
theorem load_tasks_fallback_amended :
    load_tasks .absent = Json.arr [] ∧
    load_tasks .readErr = Json.arr [] ∧
    load_tasks .blank = Json.arr [] ∧
    load_tasks .malformed = Json.arr [] ∧
    ∀ j : Json, load_tasks (.wellFormed j) = j :=
  ⟨rfl, rfl, rfl, rfl, fun _ => rfl⟩

end TodoServer
